import Mathlib

/-!
Verification of the PS3838 bet-resolution engine.

The development shallowly embeds the Python sources of the repository:
`services/ps3838_service.py`, `services/bet_service.py`,
`services/team_normalization_service.py`, `services/telegram_service.py`,
`main.py`, `config.py`, and (for the archived league predicate)
`data/old_code/ps3838.py`.  Strings are modelled as lists of characters,
Python dicts used as string-keyed maps are modelled as association lists,
and every network call is modelled by passing the response (or its
failure) as an explicit argument.
-/

/-- Python strings, modelled as lists of characters. -/
abbrev Str := List Char

/-- Python str.lower (ASCII, which covers every string the code compares). -/
def lcStr (s : Str) : Str := s.map Char.toLower

/-- Python str.upper. -/
def ucStr (s : Str) : Str := s.map Char.toUpper

/-- Whitespace recognised by Python str.strip. -/
def isWhiteChar (c : Char) : Bool := c = ' ' || c = '\t' || c = '\n' || c = '\r'

/-- Python str.strip: drop whitespace from both ends. -/
def stripStr (s : Str) : Str :=
  ((s.dropWhile isWhiteChar).reverse.dropWhile isWhiteChar).reverse

/-- Python s.replace(" ", ""): remove every space. -/
def removeSpaces (s : Str) : Str := s.filter (fun c => !(c == ' '))

/-- Does the second string start with the first (Python str.startswith)? -/
def strStarts : Str → Str → Bool
  | [], _ => true
  | _ :: _, [] => false
  | a :: as, b :: bs => a == b && strStarts as bs

/-- Python substring test: needle in hay. -/
def subStr (needle : Str) : Str → Bool
  | [] => strStarts needle []
  | c :: rest => strStarts needle (c :: rest) || subStr needle rest

/-- Lookup in a Python dict modelled as an association list (dict.get). -/
def alookup {α : Type} (k : Str) : List (Str × α) → Option α
  | [] => none
  | (k2, v) :: rest => if k = k2 then some v else alookup k rest

/-- Python dict assignment: overwrite the binding of the key, or append it. -/
def ainsert {α : Type} (k : Str) (v : α) : List (Str × α) → List (Str × α)
  | [] => [(k, v)]
  | (k2, v2) :: rest => if k = k2 then (k, v) :: rest else (k2, v2) :: ainsert k v rest

theorem alookup_ainsert {α : Type} (k j : Str) (v : α) (m : List (Str × α)) :
    alookup k (ainsert j v m) = if k = j then some v else alookup k m := by
  induction m with
  | nil => by_cases h : k = j <;> simp [ainsert, alookup, h]
  | cons hd tl ih =>
    obtain ⟨k2, v2⟩ := hd
    by_cases hj : j = k2
    · subst hj
      by_cases hk : k = j <;> simp [ainsert, alookup, hk]
    · by_cases hk : k = k2
      · subst hk
        have hkj : k ≠ j := fun h => hj h.symm
        simp [ainsert, alookup, hj, hkj]
      · simp [ainsert, alookup, hj, hk, ih]

theorem removeSpaces_append (a b : Str) :
    removeSpaces (a ++ b) = removeSpaces a ++ removeSpaces b := by
  simp [removeSpaces, List.filter_append]

/-- Key used when PROBING the game-id cache
(bet_service.py line 166: f-string of t1, t2 then replace spaces). -/
def cacheLookupKey (t1 t2 : Str) : Str := removeSpaces (t1 ++ '_' :: t2)

/-- Key used when WRITING the game-id cache
(bet_service.py lines 213-214: spaces removed from each part). -/
def cacheWriteKey (a b : Str) : Str := removeSpaces a ++ '_' :: removeSpaces b

theorem cacheKey_eq (a b : Str) : cacheLookupKey a b = cacheWriteKey a b := by
  simp [cacheLookupKey, cacheWriteKey, removeSpaces_append, removeSpaces]

example : subStr "lakers".toList "los angeles lakers".toList = true := by decide
example : subStr "not found in settled yet".toList
    (lcStr "Partido con ID 5 no encontrado en settled.".toList) = false := by decide
example : stripStr (lcStr "  Warriors ".toList) = "warriors".toList := by decide

/-- Decimal rendering of a natural number. -/
def natToStr (n : Nat) : Str := Nat.toDigits 10 n

/-- Python str(i) for an integer (dict keys such as str(sport_id)). -/
def intToStr (i : Int) : Str :=
  if i < 0 then '-' :: Nat.toDigits 10 i.natAbs else Nat.toDigits 10 i.natAbs

/-! ## config.py -/

/-- config.py line 26. -/
def MAX_CONSECUTIVE_ERRORS : Nat := 5

/-- config.py line 25 (seconds). -/
def MAIN_LOOP_SLEEP : Nat := 60

/-- config.py line 17. -/
def NCAA_LEAGUES : List Str :=
  ["NCAAB".toList, "NCAA BASKETBALL".toList, "NCAA".toList,
   "NCAA FOOTBALL".toList, "NCAAF".toList]

/-- config.py lines 13-15. -/
def LEAGUE_MAPPING : List (Str × Str) := [("NCAAB".toList, "NCAA".toList)]

/-! ## Provider payloads (spec §6 response shapes) -/

/-- One entry of a settled event's periods array. -/
structure Period where
  number : Int
  team1Score : Int
  team2Score : Int
  settledAt : Str
deriving DecidableEq

/-- One event of the settled endpoint response. -/
structure SettledEvent where
  id : Int
  periods : List Period
deriving DecidableEq

/-- One league of the settled endpoint response. -/
structure SettledLeague where
  events : List SettledEvent
deriving DecidableEq

/-- Settled endpoint response body: the pagination token and the leagues. -/
structure SettledResponse where
  last : Option Int
  leagues : List SettledLeague
deriving DecidableEq

/-- One event of the fixtures endpoint response. -/
structure FixtureEvent where
  id : Int
  home : Str
  away : Str
  rotNum : Int
deriving DecidableEq

/-- One league of the fixtures endpoint response. -/
structure FixtureLeague where
  name : Str
  id : Int
  events : List FixtureEvent
deriving DecidableEq

/-- Fixtures endpoint response body (top level key "league"). -/
structure FixturesResponse where
  league : List FixtureLeague
deriving DecidableEq

/-- Outcome of one HTTP exchange, passed to the embedded functions in place
of the network: a parsed 200 body, a 4xx/5xx status (requests raises from
raise_for_status), or a connection-level failure (timeout etc.). -/
inductive ApiResult (α : Type) where
  | ok (data : α)
  | httpError (code : Nat)
  | connError
deriving DecidableEq

/-! ## services/ps3838_service.py -/

/-- Value returned by search_in_settled: the whole body when no game id was
asked for, the matching event dict, or an error dict (its "error" value). -/
inductive SettledSearchResult where
  | fullData (d : SettledResponse)
  | event (e : SettledEvent)
  | error (msg : Str)
deriving DecidableEq

/-- ps3838_service.py line 75 error text. -/
def settledNotFoundMsg (gid : Int) : Str :=
  "Partido con ID ".toList ++ intToStr gid ++ " no encontrado en settled.".toList

/-- ps3838_service.py line 80 error text; the exception detail that the
f-string appends is abstracted away. -/
def connErrorMsg : Str := "Error de conexión".toList

/-- The scan of ps3838_service.py lines 69-73: first event of any league
whose id equals the requested one. -/
def findSettledEvent (gid : Int) : List SettledLeague → Option SettledEvent
  | [] => none
  | lg :: rest =>
    match lg.events.find? (fun e => e.id == gid) with
    | some e => some e
    | none => findSettledEvent gid rest

/-- ps3838_service.py search_in_settled (lines 19-80).  The request itself is
replaced by its outcome resp.  Returns the result dict together with the
updated last-values cache (the save_json_file persistence is identified with
the returned mapping).  Note the cursor update at lines 60-62 happens on any
200 response carrying a last field, before any event search. -/
def search_in_settled (resp : ApiResult SettledResponse) (sport_id : Int)
    (last_values_cache : List (Str × Int)) (game_id : Option Int) :
    SettledSearchResult × List (Str × Int) :=
  match resp with
  | .ok data =>
    let cache2 := match data.last with
      | some v => ainsert (intToStr sport_id) v last_values_cache
      | none => last_values_cache
    match game_id with
    | none => (.fullData data, cache2)
    | some gid =>
      match findSettledEvent gid data.leagues with
      | some e => (.event e, cache2)
      | none => (.error (settledNotFoundMsg gid), cache2)
  | .httpError _ => (.error connErrorMsg, last_values_cache)
  | .connError => (.error connErrorMsg, last_values_cache)

/-- Value returned by get_fixtures: the parsed body or an error dict. -/
inductive FixturesResult where
  | ok (d : FixturesResponse)
  | error (msg : Str)
deriving DecidableEq

/-- ps3838_service.py get_fixtures (lines 82-148).  The Bool of the result
records whether the HTTP request was issued.  The Python guard
not sport_id or sport_id <= 0 is, on an int, exactly sport_id <= 0. -/
def get_fixtures (sport_id : Int) (league_ids : Str)
    (resp : ApiResult FixturesResponse) : FixturesResult × Bool :=
  if sport_id ≤ 0 then (.error "sport_id inválido".toList, false)
  else if league_ids = [] then (.error "league_ids está vacío".toList, false)
  else
    match resp with
    | .ok d => (.ok d, true)
    | .httpError c => (.error ("Error HTTP ".toList ++ natToStr c), true)
    | .connError => (.error connErrorMsg, true)

/-! ## services/team_normalization_service.py -/

/-- Modelled from the spec: the module teams.py that the service imports is
absent from the source tree; §4.1 describes each table as alias→canonical
mappings for one sport.  Representative entries stand in for the unknown
contents (every theorem below that depends on table contents quantifies over
the table). -/
def nba_teams : List (Str × Str) :=
  [("gsw".toList, "golden state warriors".toList),
   ("la lakers".toList, "los angeles lakers".toList)]

/-- Modelled from the spec: see nba_teams. -/
def nfl_teams : List (Str × Str) := [("kc".toList, "kansas city chiefs".toList)]

/-- Modelled from the spec: see nba_teams. -/
def cfl_teams_dict : List (Str × Str) := [("bc".toList, "bc lions".toList)]

/-- Modelled from the spec: see nba_teams. -/
def ncaa_football_teams : List (Str × Str) := [("osu".toList, "ohio state".toList)]

/-- Modelled from the spec: see nba_teams. -/
def ncaa_basketball_teams : List (Str × Str) := [("uconn".toList, "connecticut".toList)]

/-- Modelled from the spec: see nba_teams. -/
def mlb_teams : List (Str × Str) := [("nyy".toList, "new york yankees".toList)]

/-- Modelled from the spec: see nba_teams. -/
def wnba_teams : List (Str × Str) := [("ny".toList, "new york liberty".toList)]

/-- Modelled from the spec: see nba_teams. -/
def nhl_teams : List (Str × Str) := [("tb".toList, "tampa bay lightning".toList)]

/-- team_normalization_service.py get_team_dictionary (lines 21-46). -/
def get_team_dictionary (sport : Str) : List (Str × Str) :=
  let s := stripStr (lcStr sport)
  if s = "nfl".toList then nfl_teams
  else if s = "nba".toList then nba_teams
  else if s = "cfl".toList then cfl_teams_dict
  else if s = "ncaaf".toList then ncaa_football_teams
  else if s = "ncaab".toList ∨ s = "ncaam".toList then ncaa_basketball_teams
  else if s = "mlb".toList then mlb_teams
  else if s = "wnba".toList then wnba_teams
  else if s = "nhl".toList then nhl_teams
  else []

/-- The body of get_normalized_team (lines 48-58) once the table has been
selected: empty input short-circuits to "", otherwise dict.get of the
lowered and stripped name with the original name as default. -/
def get_normalized_team_with (dict : List (Str × Str)) (team_name : Str) : Str :=
  if team_name = [] then []
  else (alookup (stripStr (lcStr team_name)) dict).getD team_name

/-- team_normalization_service.py get_normalized_team (lines 48-58). -/
def get_normalized_team (team_name : Str) (league : Str) : Str :=
  get_normalized_team_with (get_team_dictionary league) team_name

/-- team_normalization_service.py extract_team_names_from_bet (lines 60-76);
the regex ^([a-z]+) is the longest run of lowercase letters at the start. -/
def extract_team_names_from_bet (the_bet : Str) (league : Str) : List Str :=
  let b := stripStr (lcStr the_bet)
  if b = [] then []
  else
    let extracted := b.takeWhile (fun c => 'a' ≤ c && c ≤ 'z')
    if extracted = [] then []
    else
      let normalized := get_normalized_team extracted league
      if normalized = [] then [extracted] else [normalized]

/-! ## data/old_code/ps3838.py (archived revision) -/

/-- old_code/ps3838.py is_matching_league (lines 993-1020); the first
argument is the provider league's name field. -/
def is_matching_league (league_name : Str) (search_league : Str) : Bool :=
  let api := ucStr league_name
  if (ucStr search_league) ∈ NCAA_LEAGUES then
    if subStr "WNCAA".toList api || subStr "WOMEN".toList api then false
    else if subStr "NCAA".toList api then true
    else if subStr "COLLEGE".toList api && subStr "BASKETBALL".toList api then true
    else false
  else (ucStr search_league) = api || search_league = league_name

/-! ## services/bet_service.py -/

/-- Output of map_bet_info (bet_service.py lines 85-119): the normalized bet
record handed to get_game_data / process_bet. -/
structure BetInfo where
  id : Int
  sport : Str
  league : Str
  original_league : Str
  visitor : Str
  home : Str
  bet_type : Str
  the_bet : Str
  line : Str
  period : Str
deriving DecidableEq

/-- The bet_info sub-dict that add_bet_info_to_result attaches. -/
structure BetPayload where
  id : Int
  sport : Str
  league : Str
  bet_type : Str
  the_bet : Str
  line : Str
  period : Str
  visitor : Str
  home : Str
deriving DecidableEq

/-- The result dict that get_game_data produces, with every key that any of
its branches can set; an absent key is modelled by none / []. -/
structure GameResult where
  error : Option Str := none
  id : Option Int := none
  periods : List Period := []
  actual_home : Option Str := none
  actual_away : Option Str := none
  bet_info : Option BetPayload := none
deriving DecidableEq

/-- The environment of one resolution: the two JSON-file lookups
(get_sport_id and get_league_ids read sports_ps3838.json and
data/sport.json) and the provider responses.  settledResps is consumed one
entry per settled request, in call order; an exhausted list behaves as a
connection failure. -/
structure World where
  sportIdOf : Str → Int
  leagueIdsOf : Str → Str → Str
  fixturesResp : ApiResult FixturesResponse
  settledResps : List (ApiResult SettledResponse)

/-- Pop the next settled-endpoint response from the world. -/
def nextSettled : List (ApiResult SettledResponse) →
    ApiResult SettledResponse × List (ApiResult SettledResponse)
  | [] => (.connError, [])
  | r :: rest => (r, rest)

/-- The scan of enrich_result_with_team_names / bet_service lines 123-126:
first fixtures event with the given id. -/
def findFixtureEvent (gid : Int) : List FixtureLeague → Option FixtureEvent
  | [] => none
  | lg :: rest =>
    match lg.events.find? (fun e => e.id == gid) with
    | some e => some e
    | none => findFixtureEvent gid rest

/-- bet_service.py enrich_result_with_team_names (lines 121-130). -/
def enrichFromFixtures (gid : Int) (fixtures : FixturesResponse)
    (r : GameResult) : GameResult :=
  match findFixtureEvent gid fixtures.league with
  | some ev => { r with actual_home := some ev.home, actual_away := some ev.away }
  | none => r

/-- Inner loop of bet_service lines 163-168 (t2 ranges over team_names). -/
def innerPairIds (gameIds : List (Str × Int)) (t1 : Str) : List Str → List Int
  | [] => []
  | t2 :: rest =>
    (if t1 ≠ t2 then
      match alookup (cacheLookupKey t1 t2) gameIds with
      | some g => [g]
      | none => []
    else []) ++ innerPairIds gameIds t1 rest

/-- Outer loop of bet_service lines 163-168 (t1 ranges over team_names). -/
def outerPairIds (gameIds : List (Str × Int)) (all : List Str) :
    List Str → List Int
  | [] => []
  | t1 :: rest => innerPairIds gameIds t1 all ++ outerPairIds gameIds all rest

/-- bet_service lines 158-168: bet-id key first, then every ordered pair. -/
def collectCachedIds (bet_id_key : Str) (team_names : List Str)
    (gameIds : List (Str × Int)) : List Int :=
  (match alookup bet_id_key gameIds with
   | some g => [g]
   | none => []) ++ outerPairIds gameIds team_names team_names

/-- Python list(set(l)); the set's iteration order is unspecified, modelled
here as first occurrences (no claim depends on the order among distinct
ids). -/
def dedupInts (l : List Int) : List Int :=
  l.foldl (fun acc x => if x ∈ acc then acc else acc ++ [x]) []

/-- Conversion of a search_in_settled return value to the result dict that
the fixtures branch of get_game_data passes on (the fullData case cannot
arise when a game id was requested). -/
def toGameResult : SettledSearchResult → GameResult
  | .event e => { id := some e.id, periods := e.periods }
  | .error m => { error := some m }
  | .fullData _ => {}

/-- bet_service lines 179-200: probe settled with every cached id; stop at
the first non-error result.  The get_settled_fixtures block at lines
191-200 decorates a local dict that the loop then discards, so it has no
observable effect and is not modelled. -/
def settledProbe (sport_id : Int) (fixtures : FixturesResponse) :
    List Int → List (ApiResult SettledResponse) → List (Str × Int) →
    Option GameResult × List (ApiResult SettledResponse) × List (Str × Int)
  | [], resps, lastVals => (none, resps, lastVals)
  | gid :: rest, resps, lastVals =>
    let (r, resps2) := nextSettled resps
    let (sr, lastVals2) := search_in_settled r sport_id lastVals (some gid)
    match sr with
    | .error _ => settledProbe sport_id fixtures rest resps2 lastVals2
    | .event e =>
      (some (enrichFromFixtures gid fixtures { id := some e.id, periods := e.periods }),
       resps2, lastVals2)
    | .fullData _ =>
      (some (enrichFromFixtures gid fixtures {}), resps2, lastVals2)

/-- The team-name condition of bet_service lines 209-210. -/
def teamsMatchEvent (team_names : List Str) (api_home api_away : Str) : Bool :=
  team_names.any (fun t => subStr t api_home || subStr api_home t) ||
  team_names.any (fun t => subStr t api_away || subStr api_away t)

/-- All fixtures events in iteration order (the live loop at lines 203-229
never consults the league name). -/
def allFixtureEvents (f : FixturesResponse) : List FixtureEvent :=
  f.league.foldr (fun lg acc => lg.events ++ acc) []

/-- bet_service lines 213-216: the three cache writes made when a fixtures
event is matched — both orderings of the provider team names (spaces
removed), then the bet-id key (the if bet_id_key guard is always true: the
key starts with "bet_"), all bound to the same event id. -/
def storeGameIdMappings (gameIds : List (Str × Int)) (api_away api_home : Str)
    (gid : Int) (bet_id_key : Str) : List (Str × Int) :=
  ainsert bet_id_key gid
    (ainsert (cacheWriteKey api_home api_away) gid
      (ainsert (cacheWriteKey api_away api_home) gid gameIds))

/-- bet_service lines 203-229: scan fixtures by team names; on the first
match, write the three cache keys, query settled for the discovered id and
return that result with the provider names attached. -/
def fixturesScan (sport_id : Int) (team_names : List Str) (bet_id_key : Str) :
    List FixtureEvent → List (Str × Int) → List (ApiResult SettledResponse) →
    List (Str × Int) →
    Option GameResult × List (Str × Int) × List (ApiResult SettledResponse) ×
      List (Str × Int)
  | [], gameIds, resps, lastVals => (none, gameIds, resps, lastVals)
  | ev :: rest, gameIds, resps, lastVals =>
    let api_home := lcStr ev.home
    let api_away := lcStr ev.away
    if teamsMatchEvent team_names api_home api_away then
      let gid := ev.id
      let gameIds4 := storeGameIdMappings gameIds api_away api_home gid bet_id_key
      let (r, resps2) := nextSettled resps
      let (sr, lastVals2) := search_in_settled r sport_id lastVals (some gid)
      (some { toGameResult sr with
                actual_home := some ev.home, actual_away := some ev.away },
       gameIds4, resps2, lastVals2)
    else fixturesScan sport_id team_names bet_id_key rest gameIds resps lastVals

/-- bet_service.py get_game_data (lines 132-231).  Returns the result dict
and the final game-ids and last-values caches (save_json_file persistence is
identified with the returned mappings). -/
def get_game_data (w : World) (bet_info : BetInfo)
    (game_ids_cache : List (Str × Int)) (last_values_cache : List (Str × Int)) :
    GameResult × List (Str × Int) × List (Str × Int) :=
  let team_names0 := [bet_info.visitor, bet_info.home].filter (fun t => t ≠ [])
  let team_names := if team_names0 = [] then
      extract_team_names_from_bet bet_info.the_bet bet_info.league
    else team_names0
  if team_names = [] then
    ({ error := some "No hay equipos para buscar el partido.".toList },
     game_ids_cache, last_values_cache)
  else
    let sport_id := w.sportIdOf bet_info.sport
    let league_ids0 := w.leagueIdsOf bet_info.sport bet_info.league
    let league_ids := if league_ids0 = [] then "493".toList else league_ids0
    let bet_id_key := "bet_".toList ++ intToStr bet_info.id
    let unique_game_ids :=
      dedupInts (collectCachedIds bet_id_key team_names game_ids_cache)
    let fixtures_data : FixturesResponse :=
      match (get_fixtures sport_id league_ids w.fixturesResp).1 with
      | .ok d => d
      | .error _ => { league := [] }
    let (probe, resps2, lastVals2) :=
      settledProbe sport_id fixtures_data unique_game_ids w.settledResps
        last_values_cache
    match probe with
    | some r => (r, game_ids_cache, lastVals2)
    | none =>
      let (scan, gameIds2, _resps3, lastVals3) :=
        fixturesScan sport_id team_names bet_id_key
          (allFixtureEvents fixtures_data) game_ids_cache resps2 lastVals2
      match scan with
      | some r => (r, gameIds2, lastVals3)
      | none =>
        ({ error := some "Partido no encontrado en fixtures ni en la caché.".toList },
         gameIds2, lastVals3)

/-- bet_service.py add_bet_info_to_result (lines 233-254). -/
def add_bet_info_to_result (result : GameResult) (bet_info : BetInfo) :
    GameResult :=
  { result with bet_info := some {
      id := bet_info.id
      sport := bet_info.sport
      league := bet_info.original_league
      bet_type := bet_info.bet_type
      the_bet := bet_info.the_bet
      line := bet_info.line
      period := bet_info.period
      visitor := result.actual_away.getD bet_info.visitor
      home := result.actual_home.getD bet_info.home } }

/-- The mutable state that process_bet touches: the two caches, the
processed-bets guard and, for observation, the messages handed to
send_telegram_message in order. -/
structure ProcState where
  game_ids_cache : List (Str × Int)
  last_values_cache : List (Str × Int)
  processed_bets : List Str
  sent_messages : List GameResult
deriving DecidableEq

/-- bet_service line 275: f-string id_visitor_home. -/
def betGuardKey (bet_info : BetInfo) : Str :=
  intToStr bet_info.id ++ '_' :: bet_info.visitor ++ '_' :: bet_info.home

/-- bet_service.py process_bet (lines 256-299). -/
def process_bet (w : World) (bet_info : BetInfo) (st : ProcState) : ProcState :=
  let key := betGuardKey bet_info
  if key ∈ st.processed_bets then st
  else
    let (result, gameIds2, lastVals2) :=
      get_game_data w bet_info st.game_ids_cache st.last_values_cache
    match result.error with
    | some msg =>
      if subStr "not found in settled yet".toList (lcStr msg) then
        { st with game_ids_cache := gameIds2, last_values_cache := lastVals2 }
      else
        { st with game_ids_cache := gameIds2, last_values_cache := lastVals2,
                  sent_messages := st.sent_messages ++ [result] }
    | none =>
      { st with game_ids_cache := gameIds2, last_values_cache := lastVals2,
                sent_messages :=
                  st.sent_messages ++ [add_bet_info_to_result result bet_info],
                processed_bets := st.processed_bets ++ [key] }

/-! ## main.py polling loop -/

/-- How the body of one while-True iteration of main (lines 45-67) ends. -/
inductive CycleOutcome where
  | success
  | failure
  | interrupted
deriving DecidableEq

/-- The externally visible actions of one loop iteration. -/
inductive MainEffect where
  | processCycle
  | saveCaches
  | logError
  | logCritical
  | sinkMessage
  | sleepSecs (n : Nat)
  | exitProcess (code : Nat)
deriving DecidableEq

/-- main.py lines 45-86: one iteration of the polling loop, given the
consecutive-error counter and how the body ended.  Returns the effects in
order and the counter for the next iteration (none when the process
exited). -/
def mainLoopIteration (consecutive_errors : Nat) (outcome : CycleOutcome) :
    List MainEffect × Option Nat :=
  match outcome with
  | .success =>
    ([.processCycle, .saveCaches, .sleepSecs MAIN_LOOP_SLEEP], some 0)
  | .interrupted =>
    ([.processCycle, .saveCaches, .exitProcess 0], none)
  | .failure =>
    let c := consecutive_errors + 1
    if MAX_CONSECUTIVE_ERRORS ≤ c then
      ([.processCycle, .logError, .logCritical, .saveCaches, .sleepSecs 5,
        .exitProcess 1], none)
    else
      ([.processCycle, .logError, .sleepSecs MAIN_LOOP_SLEEP], some c)

/-! ## Helper lemmas -/

theorem search_in_settled_cache_ok (d : SettledResponse) (sport_id : Int)
    (cache : List (Str × Int)) (gid : Option Int) :
    (search_in_settled (.ok d) sport_id cache gid).2 =
      match d.last with
      | some v => ainsert (intToStr sport_id) v cache
      | none => cache := by
  cases gid with
  | none => rcases hL : d.last with _ | v <;> simp [search_in_settled, hL]
  | some g =>
    rcases hL : d.last with _ | v <;>
      rcases hF : findSettledEvent g d.leagues with _ | e <;>
        simp [search_in_settled, hL, hF]

/-! ## Claim C4 -/

/-- C4 counterexample: two successive settled calls for sport 4, the first
response carrying last = 5 and the second last = 3, leave the stored cursor
at 3, strictly below the previously stored 5 — the newly stored value is
not greater than or equal to the previous one, so the cursor does not only
ever advance. -/
theorem C4_cursor_regress_counterexample :
    alookup (intToStr 4)
      (search_in_settled (.ok { last := some 5, leagues := [] }) 4 [] none).2
      = some 5
  ∧ alookup (intToStr 4)
      (search_in_settled (.ok { last := some 3, leagues := [] }) 4
        (search_in_settled (.ok { last := some 5, leagues := [] }) 4 [] none).2
        none).2
      = some 3
  ∧ ¬ ((5 : Int) ≤ 3) := by decide

/-- C4 (amended): a normal resolution cycle never clears the stored settled
cursor of a sport, and a cycle that receives no usable settled response (no
last field, an HTTP error, or a connection failure) leaves the store
untouched; but a successful response overwrites the sport's cursor with
whatever last value it carries, with no ordering comparison against the
previous value, and other sports' entries are unaffected. -/
theorem C4_cursor_overwrite (resp : ApiResult SettledResponse) (sport_id : Int)
    (cache : List (Str × Int)) (gid : Option Int) :
    (∀ d v, resp = .ok d → d.last = some v →
        alookup (intToStr sport_id)
          (search_in_settled resp sport_id cache gid).2 = some v
      ∧ ∀ k, k ≠ intToStr sport_id →
          alookup k (search_in_settled resp sport_id cache gid).2 =
            alookup k cache)
  ∧ (∀ d, resp = .ok d → d.last = none →
      (search_in_settled resp sport_id cache gid).2 = cache)
  ∧ (resp = .connError →
      (search_in_settled resp sport_id cache gid).2 = cache)
  ∧ (∀ c, resp = .httpError c →
      (search_in_settled resp sport_id cache gid).2 = cache) := by
  refine ⟨?_, ?_, ?_, ?_⟩
  · intro d v hr hl
    subst hr
    refine ⟨?_, ?_⟩
    · simp [search_in_settled_cache_ok, hl, alookup_ainsert]
    · intro k hk
      simp [search_in_settled_cache_ok, hl, alookup_ainsert, hk]
  · intro d hr hl
    subst hr
    simp [search_in_settled_cache_ok, hl]
  · intro hr
    subst hr
    rfl
  · intro c hr
    subst hr
    rfl

/-- C4 witness: the amended theorem applied to a concrete ok response with
last = 7 on an empty store. -/
theorem C4_cursor_overwrite_witness :
    alookup (intToStr 4)
      (search_in_settled (.ok { last := some 7, leagues := [] }) 4 [] none).2
      = some 7 :=
  ((C4_cursor_overwrite (.ok { last := some 7, leagues := [] }) 4 [] none).1
    { last := some 7, leagues := [] } 7 rfl rfl).1

/-! ## Claim C5 -/

/-- C5: when a fixtures match stores an event id for the provider team pair
(away, home), the cache afterwards answers the probe key built from
(away, home) and the probe key built from (home, away) with that same event
id — both orderings are written by storeGameIdMappings, and the probe-side
key construction (f-string then space removal) coincides with the
write-side one (space removal per part). -/
theorem C5_symmetric_cache_store (cache : List (Str × Int)) (away home : Str)
    (gid : Int) (bet_id_key : Str) :
    alookup (cacheLookupKey away home)
      (storeGameIdMappings cache away home gid bet_id_key) = some gid
  ∧ alookup (cacheLookupKey home away)
      (storeGameIdMappings cache away home gid bet_id_key) = some gid := by
  constructor <;>
    · rw [cacheKey_eq]
      simp only [storeGameIdMappings, alookup_ainsert]
      split_ifs <;> simp_all

/-! ## Claim C6 -/

/-- C6: get_normalized_team is the table-driven normalizer applied to the
table that get_team_dictionary selects; for any table, a nonempty input
whose lowered-and-stripped form is a key of the table is mapped to the
table's canonical form (hence the result is insensitive to case and
surrounding whitespace, which the key normalization removes), and an input
whose normalized form is absent from the table is returned unchanged.  The
function is total, so it never throws, for any input string and any sport
label (an unrecognized sport selects the empty table). -/
theorem C6_normalize (d : List (Str × Str)) (name canon league : Str) :
    get_normalized_team name league =
      get_normalized_team_with (get_team_dictionary league) name
  ∧ (name ≠ [] → alookup (stripStr (lcStr name)) d = some canon →
      get_normalized_team_with d name = canon)
  ∧ (alookup (stripStr (lcStr name)) d = none →
      get_normalized_team_with d name = name) := by
  refine ⟨rfl, ?_, ?_⟩
  · intro hne hl
    simp [get_normalized_team_with, hne, hl]
  · intro hl
    by_cases h0 : name = []
    · subst h0
      simp [get_normalized_team_with]
    · simp [get_normalized_team_with, h0, hl]

/-- C6 witness: a cased, padded alias of the NBA table is canonicalized; a
name absent from the table is returned unchanged. -/
theorem C6_normalize_witness :
    get_normalized_team_with nba_teams "  GSW ".toList =
      "golden state warriors".toList
  ∧ get_normalized_team_with nba_teams "spurs".toList = "spurs".toList :=
  ⟨(C6_normalize nba_teams "  GSW ".toList "golden state warriors".toList
      "NBA".toList).2.1 (by decide) (by decide),
   (C6_normalize nba_teams "spurs".toList "spurs".toList
      "NBA".toList).2.2 (by decide)⟩

/-! ## Claim C8 -/

/-- C8 counterexample: with the counter one below the threshold, a failing
cycle reaches MAX_CONSECUTIVE_ERRORS and the loop terminates the process
with exit status 1 instead of resuming, and no message is handed to the
notification sink (the escalation is a logger.critical line only). -/
theorem C8_threshold_exit_counterexample :
    (mainLoopIteration 4 .failure).2 = none
  ∧ MainEffect.exitProcess 1 ∈ (mainLoopIteration 4 .failure).1
  ∧ MainEffect.sinkMessage ∉ (mainLoopIteration 4 .failure).1 := by decide

/-- C8 (amended): when the consecutive-failure count reaches
MAX_CONSECUTIVE_ERRORS the loop logs a critical message, saves both caches,
sleeps 5 seconds and exits the process with status 1 — it does not notify
the sink and does not resume; below the threshold a failing cycle is logged
and the loop continues with the incremented counter and no exit. -/
theorem C8_threshold_behavior (c : Nat) :
    (MAX_CONSECUTIVE_ERRORS ≤ c + 1 →
        (mainLoopIteration c .failure).2 = none
      ∧ MainEffect.exitProcess 1 ∈ (mainLoopIteration c .failure).1
      ∧ MainEffect.logCritical ∈ (mainLoopIteration c .failure).1
      ∧ MainEffect.saveCaches ∈ (mainLoopIteration c .failure).1
      ∧ MainEffect.sleepSecs 5 ∈ (mainLoopIteration c .failure).1
      ∧ MainEffect.sinkMessage ∉ (mainLoopIteration c .failure).1)
  ∧ (c + 1 < MAX_CONSECUTIVE_ERRORS →
        (mainLoopIteration c .failure).2 = some (c + 1)
      ∧ ∀ k, MainEffect.exitProcess k ∉ (mainLoopIteration c .failure).1) := by
  constructor
  · intro h
    simp [mainLoopIteration, h]
  · intro h
    have h2 : ¬ MAX_CONSECUTIVE_ERRORS ≤ c + 1 := Nat.not_le.mpr h
    simp [mainLoopIteration, h2]

/-- C8 witness: the amended theorem at the threshold (counter 4) and below
it (counter 0). -/
theorem C8_threshold_behavior_witness :
    ((mainLoopIteration 4 .failure).2 = none
      ∧ MainEffect.exitProcess 1 ∈ (mainLoopIteration 4 .failure).1
      ∧ MainEffect.logCritical ∈ (mainLoopIteration 4 .failure).1
      ∧ MainEffect.saveCaches ∈ (mainLoopIteration 4 .failure).1
      ∧ MainEffect.sleepSecs 5 ∈ (mainLoopIteration 4 .failure).1
      ∧ MainEffect.sinkMessage ∉ (mainLoopIteration 4 .failure).1)
  ∧ ((mainLoopIteration 0 .failure).2 = some 1
      ∧ ∀ k, MainEffect.exitProcess k ∉ (mainLoopIteration 0 .failure).1) :=
  ⟨(C8_threshold_behavior 4).1 (by decide),
   (C8_threshold_behavior 0).2 (by decide)⟩

/-! ## Claim C10 -/

/-- C10: a non-positive sport id (the Python guard "not sport_id or
sport_id <= 0" is, on an int, sport_id <= 0) or an empty league-ids string
makes get_fixtures return an error dict with the request flag false — no
HTTP request is issued. -/
theorem C10_invalid_args_no_request (sport_id : Int) (league_ids : Str)
    (resp : ApiResult FixturesResponse)
    (h : sport_id ≤ 0 ∨ league_ids = []) :
    (get_fixtures sport_id league_ids resp).2 = false
  ∧ ∃ msg, (get_fixtures sport_id league_ids resp).1 = .error msg := by
  rcases h with h | h
  · simp [get_fixtures, h]
  · by_cases hs : sport_id ≤ 0 <;> simp [get_fixtures, hs, h]

/-- C10 witness: sport id 0 (Python falsy) and a valid league string. -/
theorem C10_invalid_args_no_request_witness :
    (get_fixtures 0 "493".toList .connError).2 = false
  ∧ ∃ msg, (get_fixtures 0 "493".toList .connError).1 = .error msg :=
  C10_invalid_args_no_request 0 "493".toList .connError (Or.inl (by decide))

/-! ## Claim C3 -/

/-- The NCAA-tagged bet of the C3 counterexample. -/
def c3bet : BetInfo :=
  { id := 3, sport := "Basketball".toList, league := "NCAA".toList,
    original_league := "NCAAB".toList, visitor := "bulldogs".toList,
    home := "wildcats".toList, bet_type := "moneyline".toList,
    the_bet := "wildcats ml".toList, line := [], period := "0".toList }

/-- A provider league whose name contains WNCAA (and NCAA). -/
def c3wleagueName : Str := "WNCAA Basketball".toList

/-- Fixtures response listing a women's-league event with a matching team
name. -/
def c3fixtures : FixturesResponse :=
  { league := [{ name := c3wleagueName, id := 9001,
                 events := [{ id := 901, home := "Kentucky Wildcats".toList,
                              away := "Georgia Bulldogs".toList,
                              rotNum := 300 }] }] }

/-- World for the C3 counterexample. -/
def c3world : World :=
  { sportIdOf := fun _ => 4, leagueIdsOf := fun _ _ => "493".toList,
    fixturesResp := .ok c3fixtures,
    settledResps := [.ok { last := none, leagues := [] }] }

/-- C3 counterexample: for a bet tagged NCAA (an NCAA-like label) the live
fixture search of get_game_data matches the event of a provider league
whose name contains "WNCAA" — the bet-id cache key is bound to that event
and the result carries that event's team names — because the live scan at
bet_service lines 203-229 applies no league-name predicate at all. -/
theorem C3_wncaa_matched_counterexample :
    (ucStr c3bet.league) ∈ NCAA_LEAGUES
  ∧ subStr "WNCAA".toList (ucStr c3wleagueName) = true
  ∧ alookup "bet_3".toList (get_game_data c3world c3bet [] []).2.1 = some 901
  ∧ (get_game_data c3world c3bet [] []).1.actual_home =
      some "Kentucky Wildcats".toList := by decide

/-- C3 (amended): the WNCAA/WOMEN exclusion holds of the archived league
predicate is_matching_league (data/old_code/ps3838.py): for a search league
whose upper-cased label is NCAA-like, any provider league whose upper-cased
name contains "WNCAA" or "WOMEN" is rejected, even when it also contains
"NCAA"; the live fixture search in bet_service.py applies no league-name
predicate. -/
theorem C3_archived_league_match_excludes_women
    (league_name search_league : Str)
    (hn : (ucStr search_league) ∈ NCAA_LEAGUES)
    (hw : subStr "WNCAA".toList (ucStr league_name) = true
        ∨ subStr "WOMEN".toList (ucStr league_name) = true) :
    is_matching_league league_name search_league = false := by
  simp only [is_matching_league]
  rw [if_pos hn]
  rcases hw with h | h <;> rw [h] <;> simp

/-- C3 witness: the archived predicate rejects the league named
"WNCAA Basketball" for a search league "NCAA". -/
theorem C3_archived_league_match_witness :
    is_matching_league "WNCAA Basketball".toList "NCAA".toList = false :=
  C3_archived_league_match_excludes_women _ _ (by decide) (Or.inl (by decide))

/-! ## Claim C7 -/

/-- The bet of the spec §8 cache scenario. -/
def c7bet : BetInfo :=
  { id := 1, sport := "Basketball".toList, league := "NBA".toList,
    original_league := "NBA".toList, visitor := "warriors".toList,
    home := "lakers".toList, bet_type := "spread".toList,
    the_bet := "warriors -4.5".toList, line := "-4.5".toList,
    period := "0".toList }

/-- The fixtures response of the scenario: the single event 501. -/
def c7fixtures : FixturesResponse :=
  { league := [{ name := "NBA".toList, id := 487,
                 events := [{ id := 501, home := "Los Angeles Lakers".toList,
                              away := "Golden State Warriors".toList,
                              rotNum := 101 }] }] }

/-- The final period of event 501 in the settled response. -/
def c7period : Period :=
  { number := 0, team1Score := 110, team2Score := 115,
    settledAt := "2026-01-11T00:00:00Z".toList }

/-- Settled response for the scenario: event 501 with its final period. -/
def c7settled : SettledResponse :=
  { last := none,
    leagues := [{ events := [{ id := 501, periods := [c7period] }] }] }

/-- World for the scenario; the settled endpoint already lists event 501. -/
def c7world : World :=
  { sportIdOf := fun _ => 4, leagueIdsOf := fun _ _ => "487".toList,
    fixturesResp := .ok c7fixtures, settledResps := [.ok c7settled] }

/-- C7 counterexample: after the scenario run from an empty cache the cache
does NOT contain the keys warriors_lakers or lakers_warriors claimed for it
— the live match-time store keys the cache by the provider team names with
spaces removed (and by the bet id), not by the bet's own team names. -/
theorem C7_scenario_counterexample :
    alookup "warriors_lakers".toList
      (get_game_data c7world c7bet [] []).2.1 = none
  ∧ alookup "lakers_warriors".toList
      (get_game_data c7world c7bet [] []).2.1 = none := by decide

/-- C7 (amended): in the scenario the fixture search matches event 501 (the
returned settled result has id 501 and the provider team names), and the
cache afterwards contains goldenstatewarriors_losangeleslakers,
losangeleslakers_goldenstatewarriors and bet_1, all mapping to 501. -/
theorem C7_scenario_amended :
    (get_game_data c7world c7bet [] []).1.id = some 501
  ∧ (get_game_data c7world c7bet [] []).1.actual_home =
      some "Los Angeles Lakers".toList
  ∧ (get_game_data c7world c7bet [] []).1.actual_away =
      some "Golden State Warriors".toList
  ∧ alookup "goldenstatewarriors_losangeleslakers".toList
      (get_game_data c7world c7bet [] []).2.1 = some 501
  ∧ alookup "losangeleslakers_goldenstatewarriors".toList
      (get_game_data c7world c7bet [] []).2.1 = some 501
  ∧ alookup "bet_1".toList
      (get_game_data c7world c7bet [] []).2.1 = some 501 := by decide

/-! ## Claim C1 -/

/-- Bet for the C1 failing input. -/
def c1bet : BetInfo :=
  { id := 9, sport := "Basketball".toList, league := "NBA".toList,
    original_league := "NBA".toList, visitor := "celtics".toList,
    home := "heat".toList, bet_type := "total".toList,
    the_bet := "over 210".toList, line := "210".toList, period := "0".toList }

/-- World for the C1 failing input: the settled response contains the cached
event 600 with an EMPTY period list; fixtures are unavailable. -/
def c1settled : SettledResponse :=
  { last := some 100,
    leagues := [{ events := [{ id := 600, periods := [] }] }] }

/-- World for the C1 failing input (fixtures are unavailable). -/
def c1world : World :=
  { sportIdOf := fun _ => 4, leagueIdsOf := fun _ _ => "487".toList,
    fixturesResp := .connError, settledResps := [.ok c1settled] }

/-- Initial state for C1: the bet-id cache key already maps to event 600. -/
def c1start : ProcState :=
  { game_ids_cache := [("bet_9".toList, 600)], last_values_cache := [],
    processed_bets := [], sent_messages := [] }

/-- C1 evaluated at the failing input: the settled response contains the
queried event 600 with an empty period list, yet get_game_data returns it
as a success (no error key, periods []), so process_bet emits a
notification and adds the bet to the processed guard — the live
search_in_settled (ps3838_service lines 69-73) returns a matched event
without checking its periods, unlike the archived revision, so the bet is
resolved rather than deferred. -/
theorem C1_empty_periods_resolved :
    (get_game_data c1world c1bet c1start.game_ids_cache
        c1start.last_values_cache).1.error = none
  ∧ (get_game_data c1world c1bet c1start.game_ids_cache
        c1start.last_values_cache).1.periods = []
  ∧ (process_bet c1world c1bet c1start).sent_messages.length = 1
  ∧ betGuardKey c1bet ∈ (process_bet c1world c1bet c1start).processed_bets
    := by decide

/-! ## Claim C2 -/

/-- Bet for the C2 failing input. -/
def c2bet : BetInfo :=
  { id := 2, sport := "Basketball".toList, league := "NBA".toList,
    original_league := "NBA".toList, visitor := "spurs".toList,
    home := "nuggets".toList, bet_type := "spread".toList,
    the_bet := "spurs +3".toList, line := "+3".toList, period := "0".toList }

/-- Fixtures response for C2: the pending event 777. -/
def c2fixtures : FixturesResponse :=
  { league := [{ name := "NBA".toList, id := 487,
                 events := [{ id := 777, home := "Denver Nuggets".toList,
                              away := "San Antonio Spurs".toList,
                              rotNum := 200 }] }] }

/-- World for the C2 failing input: fixtures list the event 777 but the
settled endpoint does not contain it yet (the bet is pending). -/
def c2world : World :=
  { sportIdOf := fun _ => 4, leagueIdsOf := fun _ _ => "487".toList,
    fixturesResp := .ok c2fixtures,
    settledResps := [.ok { last := none, leagues := [] }] }

/-- Empty initial state for C2. -/
def c2start : ProcState :=
  { game_ids_cache := [], last_values_cache := [], processed_bets := [],
    sent_messages := [] }

/-- C2 evaluated at the failing input: resolution ends in the
not-yet-settled state (the error value is the Spanish not-found-in-settled
message for event 777), yet process_bet hands this error result to the
notification sink — its suppression guard tests for the English phrase
"not found in settled yet", which no error produced by the live services
ever contains, so the logged-only branch is unreachable for this state. -/
theorem C2_pending_error_notified :
    (get_game_data c2world c2bet [] []).1.error = some (settledNotFoundMsg 777)
  ∧ subStr "not found in settled yet".toList
      (lcStr (settledNotFoundMsg 777)) = false
  ∧ (process_bet c2world c2bet c2start).sent_messages.map (fun r => r.error)
      = [some (settledNotFoundMsg 777)]
  ∧ (process_bet c2world c2bet c2start).processed_bets = [] := by decide

/-! ## Claim C9 -/

/-- A bet whose guard key is already recorded is skipped untouched
(bet_service lines 275-278). -/
theorem process_bet_guard_noop (w : World) (bet : BetInfo) (st : ProcState)
    (h : betGuardKey bet ∈ st.processed_bets) : process_bet w bet st = st := by
  simp [process_bet, h]

/-- C9: if a bet is not yet in the processed guard and its resolution
succeeds (the result dict has no error key), then processing it sends
exactly one more message to the sink and records the composite guard key;
processing the same bet again in the same process lifetime is a no-op, so
the second resolution sends nothing — exactly one notification overall. -/
theorem C9_notify_once (w : World) (bet : BetInfo) (st : ProcState)
    (hkey : betGuardKey bet ∉ st.processed_bets)
    (hok : (get_game_data w bet st.game_ids_cache st.last_values_cache).1.error
      = none) :
    (process_bet w bet st).sent_messages.length = st.sent_messages.length + 1
  ∧ betGuardKey bet ∈ (process_bet w bet st).processed_bets
  ∧ process_bet w bet (process_bet w bet st) = process_bet w bet st := by
  rcases hgd : get_game_data w bet st.game_ids_cache st.last_values_cache
    with ⟨result, g2, l2⟩
  rw [hgd] at hok
  have hok2 : result.error = none := hok
  have hst : process_bet w bet st =
      { st with
        game_ids_cache := g2, last_values_cache := l2,
        sent_messages := st.sent_messages ++ [add_bet_info_to_result result bet],
        processed_bets := st.processed_bets ++ [betGuardKey bet] } := by
    simp [process_bet, hkey, hgd, hok2]
  have hmem : betGuardKey bet ∈ (process_bet w bet st).processed_bets := by
    rw [hst]
    simp
  exact ⟨by rw [hst]; simp, hmem, process_bet_guard_noop w bet _ hmem⟩

/-- Bet for the C9 witness. -/
def c9bet : BetInfo :=
  { id := 11, sport := "Basketball".toList, league := "NBA".toList,
    original_league := "NBA".toList, visitor := "knicks".toList,
    home := "bulls".toList, bet_type := "spread".toList,
    the_bet := "knicks -2".toList, line := "-2".toList, period := "0".toList }

/-- Fixtures response for the C9 witness: event 812. -/
def c9fixtures : FixturesResponse :=
  { league := [{ name := "NBA".toList, id := 487,
                 events := [{ id := 812, home := "Chicago Bulls".toList,
                              away := "New York Knicks".toList,
                              rotNum := 110 }] }] }

/-- The final period of event 812 in the settled response. -/
def c9period : Period :=
  { number := 0, team1Score := 95, team2Score := 99,
    settledAt := "2026-01-12T00:00:00Z".toList }

/-- Settled response for the C9 witness: event 812 with its final period. -/
def c9settled : SettledResponse :=
  { last := some 42,
    leagues := [{ events := [{ id := 812, periods := [c9period] }] }] }

/-- World for the C9 witness: event 812 is both in fixtures and settled. -/
def c9world : World :=
  { sportIdOf := fun _ => 4, leagueIdsOf := fun _ _ => "487".toList,
    fixturesResp := .ok c9fixtures, settledResps := [.ok c9settled] }

/-- Empty initial state for the C9 witness. -/
def c9start : ProcState :=
  { game_ids_cache := [], last_values_cache := [], processed_bets := [],
    sent_messages := [] }

/-- C9 witness: a concrete successfully resolving bet processed twice sends
exactly one message. -/
theorem C9_notify_once_witness :
    (process_bet c9world c9bet c9start).sent_messages.length =
      c9start.sent_messages.length + 1
  ∧ betGuardKey c9bet ∈ (process_bet c9world c9bet c9start).processed_bets
  ∧ process_bet c9world c9bet (process_bet c9world c9bet c9start) =
      process_bet c9world c9bet c9start :=
  C9_notify_once c9world c9bet c9start (by decide) (by decide)
